import Mathlib

/-!
Shallow embedding of the `eywa-errors` crate (files `src/app_error.rs`,
`src/http_errors.rs`, `src/lib.rs`): an application error taxonomy
(`AppError`), its conversion to RFC 7807 problem-details documents
(`to_problem_details`), the validation aggregate (`ValidationErrors`) and
its fluent builder (`ValidationErrorBuilder`), and the task-local
request-id correlation context (`set_request_id` / `get_request_id`).

Modelling conventions:
* Rust `String` is Lean `String`; `Vec<T>` is `List T`.
* `serde_json::Value` is modelled by the inductive `Json` (numbers as `Int`;
  only the structure of the value matters here, no claim inspects numerics).
* `uuid::Uuid` is a `Nat` below `2 ^ 128`; `Uuid::new_v4()` is modelled as a
  pure function `uuid_new_v4` of the 128 random bits drawn from the OS
  entropy source, overwriting the version nibble (bits 76..79 := 4) and the
  RFC 4122 variant bits (bits 62..63 := 0b10) exactly as the `uuid` crate
  does.
* The tokio task-local `CURRENT_REQUEST_ID` plus the entropy source are made
  explicit as a `RequestContext` state threaded through `get_request_id` and
  `set_request_id` (`sync_scope` binds for the body and restores afterwards).
* `chrono::Utc::now().to_rfc3339()` is an arbitrary `now : String` input.
* Rust `Result<(), AppError>` is `Except AppError Unit`.
* serde serialization with `skip_serializing_if` is modelled by `to_json`
  functions producing the ordered member list of the JSON object.
-/

/-- Model of `serde_json::Value` (numbers collapsed to `Int`). -/
inductive Json where
  | null
  | bool (b : Bool)
  | num (n : Int)
  | str (s : String)
  | arr (elems : List Json)
  | obj (members : List (String × Json))

/-- Field-level error for validation failures (`FieldError` in
`app_error.rs`). -/
structure FieldError where
  field : String
  code : String
  message : String
  received : Option Json

/-- `FieldError::new` — received value absent. -/
def FieldError.new (field code message : String) : FieldError :=
  { field := field, code := code, message := message, received := none }

/-- `FieldError::with_received`. -/
def FieldError.with_received (field code message : String) (received : Json) :
    FieldError :=
  { field := field, code := code, message := message, received := some received }

/-- Collection of validation errors (`ValidationErrors` in `app_error.rs`). -/
structure ValidationErrors where
  errors : List FieldError

/-- `ValidationErrors::new` / `Default`. -/
def ValidationErrors.new : ValidationErrors := { errors := [] }

/-- `ValidationErrors::add` (the Rust method mutates `self`; modelled
functionally as returning the updated collection). -/
def ValidationErrors.add (v : ValidationErrors) (field code message : String) :
    ValidationErrors :=
  { errors := v.errors ++ [FieldError.new field code message] }

/-- `ValidationErrors::add_with_value`. -/
def ValidationErrors.add_with_value (v : ValidationErrors)
    (field code message : String) (received : Json) : ValidationErrors :=
  { errors := v.errors ++ [FieldError.with_received field code message received] }

/-- `ValidationErrors::is_empty`. -/
def ValidationErrors.is_empty (v : ValidationErrors) : Bool :=
  v.errors.isEmpty

/-- `ValidationErrors::len`. -/
def ValidationErrors.len (v : ValidationErrors) : Nat :=
  v.errors.length

/-- `Display for ValidationErrors`: the field/message pairs joined by
a comma and a space. -/
def ValidationErrors.display (v : ValidationErrors) : String :=
  String.intercalate ", " (v.errors.map (fun e => e.field ++ ": " ++ e.message))

/-- The error taxonomy (`enum AppError` in `app_error.rs`). The
`sea_orm::DbErr` payload of `DatabaseError` is modelled by its rendered
display string, which is all the crate ever reads from it. -/
inductive AppError where
  | NotFound (resource id : String)
  | Validation (v : ValidationErrors)
  | ValidationField (field message : String)
  | Unauthorized
  | Forbidden (action : String)
  | Conflict (message : String)
  | DatabaseError (cause : String)
  | ConfigError (message : String)
  | ExternalServiceError (service : String)
  | InternalServerError (message : String)
  | BadRequest (message : String)
  | ServiceUnavailable (message : String)

/-- The `thiserror`-derived `Display for AppError` (the `#[error("...")]`
format strings), used as the `detail` field. -/
def AppError.display : AppError → String
  | .NotFound resource id => "Resource not found: " ++ resource ++ " with id: " ++ id
  | .Validation v => "Validation error: " ++ v.display
  | .ValidationField field message => "Validation error: " ++ field ++ " - " ++ message
  | .Unauthorized => "Unauthorized"
  | .Forbidden action => "Forbidden: " ++ action
  | .Conflict message => "Conflict: " ++ message
  | .DatabaseError cause => "Database error: " ++ cause
  | .ConfigError message => "Configuration error: " ++ message
  | .ExternalServiceError service => "External service error: " ++ service
  | .InternalServerError message => "Internal error: " ++ message
  | .BadRequest message => "Bad Request: " ++ message
  | .ServiceUnavailable message => "Service unavailable: " ++ message

/-- `AppError::error_type_uri`. -/
def AppError.error_type_uri : AppError → String
  | .NotFound _ _ => "https://errors.eywa.dev/not-found"
  | .Validation _ => "https://errors.eywa.dev/validation-error"
  | .ValidationField _ _ => "https://errors.eywa.dev/validation-error"
  | .Unauthorized => "https://errors.eywa.dev/unauthorized"
  | .Forbidden _ => "https://errors.eywa.dev/forbidden"
  | .Conflict _ => "https://errors.eywa.dev/conflict"
  | .DatabaseError _ => "https://errors.eywa.dev/database-error"
  | .ExternalServiceError _ => "https://errors.eywa.dev/external-service-error"
  | .InternalServerError _ => "https://errors.eywa.dev/internal-error"
  | .BadRequest _ => "https://errors.eywa.dev/bad-request"
  | .ServiceUnavailable _ => "https://errors.eywa.dev/service-unavailable"
  | .ConfigError _ => "https://errors.eywa.dev/config-error"

/-- `AppError::status_and_title` (axum `StatusCode` rendered as its
numeric `as_u16` value). -/
def AppError.status_and_title : AppError → Nat × String
  | .NotFound _ _ => (404, "Not Found")
  | .Validation _ => (400, "Validation Error")
  | .ValidationField _ _ => (400, "Validation Error")
  | .BadRequest _ => (400, "Bad Request")
  | .Unauthorized => (401, "Unauthorized")
  | .Forbidden _ => (403, "Forbidden")
  | .Conflict _ => (409, "Conflict")
  | .DatabaseError _ => (500, "Database Error")
  | .ConfigError _ => (500, "Configuration Error")
  | .ExternalServiceError _ => (502, "External Service Error")
  | .InternalServerError _ => (500, "Internal Server Error")
  | .ServiceUnavailable _ => (503, "Service Unavailable")

/-- `Uuid::new_v4()` as a function of the 128 random bits `r` drawn from the
entropy source: the version nibble (bits 76..79) is overwritten with `4` and
the variant bits (62..63) with `0b10`, all other bits kept. -/
def uuid_new_v4 (r : Nat) : Nat :=
  r % 2 ^ 128 / 2 ^ 80 * 2 ^ 80 + 4 * 2 ^ 76 +
    r % 2 ^ 128 / 2 ^ 64 % 2 ^ 12 * 2 ^ 64 + 2 * 2 ^ 62 + r % 2 ^ 128 % 2 ^ 62

/-- The bits of the entropy draw that survive into `uuid_new_v4`'s output:
everything outside the overwritten version nibble and variant bits. -/
def uuid_entropy_kept (r : Nat) : Nat × Nat × Nat :=
  (r % 2 ^ 128 / 2 ^ 80, r % 2 ^ 128 / 2 ^ 64 % 2 ^ 12, r % 2 ^ 128 % 2 ^ 62)

/-- Explicit model of the ambient state behind the correlation context: the
tokio task-local `CURRENT_REQUEST_ID` binding, plus the OS entropy source
(`rand` indexed by how many draws `rand_calls` happened so far). -/
structure RequestContext where
  current_request_id : Option Nat
  rand : Nat → Nat
  rand_calls : Nat

/-- `get_request_id`: the bound task-local id if set, else a fresh v4 uuid
from the next entropy draw; the fallback binds nothing (the task-local stays
unset), it only consumes entropy. -/
def get_request_id (s : RequestContext) : Nat × RequestContext :=
  match s.current_request_id with
  | some id => (id, s)
  | none =>
      (uuid_new_v4 (s.rand s.rand_calls), { s with rand_calls := s.rand_calls + 1 })

/-- `set_request_id(request_id, f)` = `CURRENT_REQUEST_ID.sync_scope`: runs
`f` with the task-local bound to `request_id`, restoring the previous
binding afterwards. -/
def set_request_id {R : Type} (request_id : Nat)
    (f : RequestContext → R × RequestContext) (s : RequestContext) :
    R × RequestContext :=
  let p := f { s with current_request_id := some request_id }
  (p.1, { p.2 with current_request_id := s.current_request_id })

/-- Hex digit used by the uuid textual form. -/
def hex_digit (n : Nat) : Char :=
  if n < 10 then Char.ofNat (48 + n) else Char.ofNat (87 + n)

/-- Fixed-width lowercase hex rendering (most significant digit first). -/
def hex_pad : Nat → Nat → String
  | _, 0 => ""
  | n, w + 1 => hex_pad (n / 16) w ++ String.singleton (hex_digit (n % 16))

/-- `Uuid::to_string()`: hyphenated lowercase hex, 8-4-4-4-12. -/
def uuid_to_string (u : Nat) : String :=
  hex_pad (u / 2 ^ 96 % 2 ^ 32) 8 ++ "-" ++ hex_pad (u / 2 ^ 80 % 2 ^ 16) 4 ++ "-" ++
    hex_pad (u / 2 ^ 64 % 2 ^ 16) 4 ++ "-" ++ hex_pad (u / 2 ^ 48 % 2 ^ 16) 4 ++ "-" ++
    hex_pad (u % 2 ^ 48) 12

/-- RFC 7807 problem-details document (`ProblemDetails` in `app_error.rs`).
The Rust field serialized as `"type"` is named `error_type` there too; the
Rust field `instance` is named `instance_uri` here because `instance` is a
Lean keyword. -/
structure ProblemDetails where
  error_type : String
  title : String
  status : Nat
  detail : String
  instance_uri : Option String
  request_id : String
  timestamp : String
  errors : List FieldError

/-- `AppError::to_problem_details`, with the ambient context and the clock
made explicit: `ctx` supplies `get_request_id()`, `now` is
`chrono::Utc::now().to_rfc3339()`. -/
def to_problem_details (e : AppError) (ctx : RequestContext) (now : String) :
    ProblemDetails :=
  { error_type := e.error_type_uri
    title := e.status_and_title.2
    status := e.status_and_title.1
    detail := e.display
    instance_uri := none
    request_id := uuid_to_string (get_request_id ctx).1
    timestamp := now
    errors :=
      match e with
      | .Validation v => v.errors
      | .ValidationField field message =>
          [FieldError.new field "validation_error" message]
      | _ => [] }

/-- `ValidationErrors::into_result`. -/
def ValidationErrors.into_result (v : ValidationErrors) : Except AppError Unit :=
  if v.is_empty then Except.ok () else Except.error (AppError.Validation v)

/-- `impl From<ValidationErrors> for AppError` (unconditional wrap). -/
def AppError.from_validation_errors (errors : ValidationErrors) : AppError :=
  AppError.Validation errors

/-- Builder for collecting multiple validation errors
(`ValidationErrorBuilder` in `http_errors.rs`). -/
structure ValidationErrorBuilder where
  errors : ValidationErrors

/-- `ValidationErrorBuilder::new` / `Default`. -/
def ValidationErrorBuilder.new : ValidationErrorBuilder :=
  { errors := ValidationErrors.new }

/-- `ValidationErrorBuilder::field` (move-chaining: consumes and returns the
builder). -/
def ValidationErrorBuilder.field (b : ValidationErrorBuilder)
    (field code message : String) : ValidationErrorBuilder :=
  { errors := b.errors.add field code message }

/-- `ValidationErrorBuilder::field_with_value`. -/
def ValidationErrorBuilder.field_with_value (b : ValidationErrorBuilder)
    (field code message : String) (received : Json) : ValidationErrorBuilder :=
  { errors := b.errors.add_with_value field code message received }

/-- `ValidationErrorBuilder::build`. -/
def ValidationErrorBuilder.build (b : ValidationErrorBuilder) :
    Except AppError Unit :=
  b.errors.into_result

/-- `ValidationErrorBuilder::has_errors`. -/
def ValidationErrorBuilder.has_errors (b : ValidationErrorBuilder) : Bool :=
  !b.errors.is_empty

/-- One call against a `ValidationErrorBuilder` (used to quantify over all
builders reachable from `new()` by chained calls). -/
inductive BuilderOp where
  | field (name code message : String)
  | field_with_value (name code message : String) (received : Json)

/-- Apply one builder call. -/
def apply_builder_op (b : ValidationErrorBuilder) : BuilderOp → ValidationErrorBuilder
  | .field name code message => b.field name code message
  | .field_with_value name code message received =>
      b.field_with_value name code message received

/-- The builder obtained from `ValidationErrorBuilder::new()` by a chain of
`field` / `field_with_value` calls. -/
def run_builder_ops (ops : List BuilderOp) : ValidationErrorBuilder :=
  ops.foldl apply_builder_op ValidationErrorBuilder.new

/-- serde serialization of `FieldError` as the ordered member list of its
JSON object; `received` carries `skip_serializing_if = "Option::is_none"`. -/
def FieldError.to_json (e : FieldError) : List (String × Json) :=
  [("field", Json.str e.field), ("code", Json.str e.code),
    ("message", Json.str e.message)] ++
    (match e.received with
     | none => []
     | some v => [("received", v)])

/-- serde serialization of `ProblemDetails` as the ordered member list of its
JSON object: `error_type` is renamed to `"type"`, `instance` carries
`skip_serializing_if = "Option::is_none"` and `errors` carries
`skip_serializing_if = "Vec::is_empty"`. -/
def ProblemDetails.to_json (p : ProblemDetails) : List (String × Json) :=
  [("type", Json.str p.error_type), ("title", Json.str p.title),
    ("status", Json.num p.status), ("detail", Json.str p.detail)] ++
    (match p.instance_uri with
     | none => []
     | some i => [("instance", Json.str i)]) ++
    [("request_id", Json.str p.request_id), ("timestamp", Json.str p.timestamp)] ++
    (if p.errors.isEmpty then []
     else [("errors", Json.arr (p.errors.map (fun e => Json.obj e.to_json)))])

/-! ## Claim theorems -/

/-- C1: for every value of the error taxonomy `AppError`,
`to_problem_details` returns a `ProblemDetails` whose `status` and `title`
are exactly those of the fixed table and whose `type` is the variant's
dedicated URI: NotFound → 404 "Not Found"; Validation and ValidationField →
400 "Validation Error"; BadRequest → 400 "Bad Request"; Unauthorized → 401
"Unauthorized"; Forbidden → 403 "Forbidden"; Conflict → 409 "Conflict";
DatabaseError → 500 "Database Error"; ConfigError → 500 "Configuration
Error"; ExternalServiceError → 502 "External Service Error";
InternalServerError → 500 "Internal Server Error"; ServiceUnavailable → 503
"Service Unavailable". -/
theorem to_problem_details_matches_status_title_type_table
    (resource id fld m : String) (v : ValidationErrors)
    (ctx : RequestContext) (now : String) :
    ((to_problem_details (AppError.NotFound resource id) ctx now).status = 404 ∧
      (to_problem_details (AppError.NotFound resource id) ctx now).title = "Not Found" ∧
      (to_problem_details (AppError.NotFound resource id) ctx now).error_type =
        "https://errors.eywa.dev/not-found") ∧
    ((to_problem_details (AppError.Validation v) ctx now).status = 400 ∧
      (to_problem_details (AppError.Validation v) ctx now).title = "Validation Error" ∧
      (to_problem_details (AppError.Validation v) ctx now).error_type =
        "https://errors.eywa.dev/validation-error") ∧
    ((to_problem_details (AppError.ValidationField fld m) ctx now).status = 400 ∧
      (to_problem_details (AppError.ValidationField fld m) ctx now).title = "Validation Error" ∧
      (to_problem_details (AppError.ValidationField fld m) ctx now).error_type =
        "https://errors.eywa.dev/validation-error") ∧
    ((to_problem_details (AppError.BadRequest m) ctx now).status = 400 ∧
      (to_problem_details (AppError.BadRequest m) ctx now).title = "Bad Request" ∧
      (to_problem_details (AppError.BadRequest m) ctx now).error_type =
        "https://errors.eywa.dev/bad-request") ∧
    ((to_problem_details AppError.Unauthorized ctx now).status = 401 ∧
      (to_problem_details AppError.Unauthorized ctx now).title = "Unauthorized" ∧
      (to_problem_details AppError.Unauthorized ctx now).error_type =
        "https://errors.eywa.dev/unauthorized") ∧
    ((to_problem_details (AppError.Forbidden m) ctx now).status = 403 ∧
      (to_problem_details (AppError.Forbidden m) ctx now).title = "Forbidden" ∧
      (to_problem_details (AppError.Forbidden m) ctx now).error_type =
        "https://errors.eywa.dev/forbidden") ∧
    ((to_problem_details (AppError.Conflict m) ctx now).status = 409 ∧
      (to_problem_details (AppError.Conflict m) ctx now).title = "Conflict" ∧
      (to_problem_details (AppError.Conflict m) ctx now).error_type =
        "https://errors.eywa.dev/conflict") ∧
    ((to_problem_details (AppError.DatabaseError m) ctx now).status = 500 ∧
      (to_problem_details (AppError.DatabaseError m) ctx now).title = "Database Error" ∧
      (to_problem_details (AppError.DatabaseError m) ctx now).error_type =
        "https://errors.eywa.dev/database-error") ∧
    ((to_problem_details (AppError.ConfigError m) ctx now).status = 500 ∧
      (to_problem_details (AppError.ConfigError m) ctx now).title = "Configuration Error" ∧
      (to_problem_details (AppError.ConfigError m) ctx now).error_type =
        "https://errors.eywa.dev/config-error") ∧
    ((to_problem_details (AppError.ExternalServiceError m) ctx now).status = 502 ∧
      (to_problem_details (AppError.ExternalServiceError m) ctx now).title =
        "External Service Error" ∧
      (to_problem_details (AppError.ExternalServiceError m) ctx now).error_type =
        "https://errors.eywa.dev/external-service-error") ∧
    ((to_problem_details (AppError.InternalServerError m) ctx now).status = 500 ∧
      (to_problem_details (AppError.InternalServerError m) ctx now).title =
        "Internal Server Error" ∧
      (to_problem_details (AppError.InternalServerError m) ctx now).error_type =
        "https://errors.eywa.dev/internal-error") ∧
    ((to_problem_details (AppError.ServiceUnavailable m) ctx now).status = 503 ∧
      (to_problem_details (AppError.ServiceUnavailable m) ctx now).title =
        "Service Unavailable" ∧
      (to_problem_details (AppError.ServiceUnavailable m) ctx now).error_type =
        "https://errors.eywa.dev/service-unavailable") :=
  ⟨⟨rfl, rfl, rfl⟩, ⟨rfl, rfl, rfl⟩, ⟨rfl, rfl, rfl⟩, ⟨rfl, rfl, rfl⟩,
    ⟨rfl, rfl, rfl⟩, ⟨rfl, rfl, rfl⟩, ⟨rfl, rfl, rfl⟩, ⟨rfl, rfl, rfl⟩,
    ⟨rfl, rfl, rfl⟩, ⟨rfl, rfl, rfl⟩, ⟨rfl, rfl, rfl⟩, ⟨rfl, rfl, rfl⟩⟩

/-- C2: each `field` / `field_with_value` call appends exactly one
`FieldError` and returns the builder; `build()` returns `Ok(())` iff no
field errors were accumulated and otherwise `Err(AppError::Validation)`
wrapping the whole aggregate in insertion order; the zero-call builder
builds to `Ok(())`; the concrete two-field chain from the spec yields an
`Err` whose problem details carry both errors in the order added. -/
theorem validation_error_builder_accumulates_and_builds
    (b : ValidationErrorBuilder) (fld code msg : String) (val : Json)
    (ctx : RequestContext) (now : String) :
    ((b.field fld code msg).errors.errors =
      b.errors.errors ++ [FieldError.new fld code msg]) ∧
    ((b.field_with_value fld code msg val).errors.errors =
      b.errors.errors ++ [FieldError.with_received fld code msg val]) ∧
    (b.build = Except.ok () ↔ b.errors.errors = []) ∧
    (b.build = if b.errors.errors.isEmpty then Except.ok ()
      else Except.error (AppError.Validation b.errors)) ∧
    (ValidationErrorBuilder.new.build = Except.ok ()) ∧
    (((ValidationErrorBuilder.new.field "email" "invalid_format" "bad").field
        "name" "too_short" "short").build =
      Except.error (AppError.Validation { errors :=
        [FieldError.new "email" "invalid_format" "bad",
          FieldError.new "name" "too_short" "short"] })) ∧
    ((to_problem_details (AppError.Validation { errors :=
        [FieldError.new "email" "invalid_format" "bad",
          FieldError.new "name" "too_short" "short"] }) ctx now).errors =
      [FieldError.new "email" "invalid_format" "bad",
        FieldError.new "name" "too_short" "short"]) := by
  refine ⟨rfl, rfl, ?_, rfl, rfl, rfl, rfl⟩
  obtain ⟨⟨l⟩⟩ := b
  cases l <;>
    simp [ValidationErrorBuilder.build, ValidationErrors.into_result,
      ValidationErrors.is_empty]

/-- C3 (counterexample): the claim says that for every operation converting
a `ValidationErrors` value into a failure — explicitly including the
`From<ValidationErrors> for AppError` conversion — an empty aggregate never
produces an `AppError::Validation` failure. But the `From` impl
(`app_error.rs` lines 343–347) wraps unconditionally: converting the empty
aggregate produces exactly `AppError::Validation` carrying the empty
aggregate. -/
theorem empty_aggregate_from_conversion_yields_validation :
    AppError.from_validation_errors ValidationErrors.new =
      AppError.Validation { errors := [] } :=
  rfl

/-- C3 (amended): `into_result` — and hence the builder's `build()` — maps an
empty aggregate to `Ok(())` and a non-empty one to exactly one
`AppError::Validation` carrying the whole aggregate with field order
preserved; the `From<ValidationErrors> for AppError` conversion, by
contrast, unconditionally produces `AppError::Validation` carrying the whole
aggregate, including when it is empty. -/
theorem validation_errors_conversion_amended (v : ValidationErrors) :
    (v.into_result = Except.ok () ↔ v.errors = []) ∧
    (v.into_result = Except.error (AppError.Validation v) ↔ v.errors ≠ []) ∧
    (ValidationErrorBuilder.build { errors := v } = v.into_result) ∧
    (AppError.from_validation_errors v = AppError.Validation v) := by
  obtain ⟨l⟩ := v
  refine ⟨?_, ?_, rfl, rfl⟩ <;>
    cases l <;>
      simp [ValidationErrors.into_result, ValidationErrors.is_empty]

/-- C4: the `errors` field of `to_problem_details` is the aggregate's
sequence (in order) for `Validation`, the singleton derived from the field
and message for `ValidationField`, and empty for every other variant. -/
theorem to_problem_details_errors_field_by_variant
    (v : ValidationErrors) (resource id fld m : String)
    (ctx : RequestContext) (now : String) :
    ((to_problem_details (AppError.Validation v) ctx now).errors = v.errors) ∧
    ((to_problem_details (AppError.ValidationField fld m) ctx now).errors =
      [FieldError.new fld "validation_error" m]) ∧
    ((to_problem_details (AppError.NotFound resource id) ctx now).errors = []) ∧
    ((to_problem_details AppError.Unauthorized ctx now).errors = []) ∧
    ((to_problem_details (AppError.Forbidden m) ctx now).errors = []) ∧
    ((to_problem_details (AppError.Conflict m) ctx now).errors = []) ∧
    ((to_problem_details (AppError.DatabaseError m) ctx now).errors = []) ∧
    ((to_problem_details (AppError.ConfigError m) ctx now).errors = []) ∧
    ((to_problem_details (AppError.ExternalServiceError m) ctx now).errors = []) ∧
    ((to_problem_details (AppError.InternalServerError m) ctx now).errors = []) ∧
    ((to_problem_details (AppError.BadRequest m) ctx now).errors = []) ∧
    ((to_problem_details (AppError.ServiceUnavailable m) ctx now).errors = []) :=
  ⟨rfl, rfl, rfl, rfl, rfl, rfl, rfl, rfl, rfl, rfl, rfl, rfl⟩

/-- C5: converting the same taxonomy failure twice yields problem details
identical in `type`, `title`, `status`, `detail`, `instance` and `errors`,
whatever the context or clock of each conversion; with the same ambient
correlation id bound, `request_id` agrees too. The conversion takes the
error by shared reference and is modelled as a pure function of it, so it
cannot modify the failure value. -/
theorem to_problem_details_deterministic_apart_from_timestamp
    (e : AppError) (ctx1 ctx2 : RequestContext) (now1 now2 : String) :
    ((to_problem_details e ctx1 now1).error_type =
      (to_problem_details e ctx2 now2).error_type) ∧
    ((to_problem_details e ctx1 now1).title = (to_problem_details e ctx2 now2).title) ∧
    ((to_problem_details e ctx1 now1).status = (to_problem_details e ctx2 now2).status) ∧
    ((to_problem_details e ctx1 now1).detail = (to_problem_details e ctx2 now2).detail) ∧
    ((to_problem_details e ctx1 now1).instance_uri =
      (to_problem_details e ctx2 now2).instance_uri) ∧
    ((to_problem_details e ctx1 now1).errors = (to_problem_details e ctx2 now2).errors) ∧
    (∀ (id : Nat) (rand1 rand2 : Nat → Nat) (n1 n2 : Nat),
      (to_problem_details e ⟨some id, rand1, n1⟩ now1).request_id =
        (to_problem_details e ⟨some id, rand2, n2⟩ now2).request_id) :=
  ⟨rfl, rfl, rfl, rfl, rfl, rfl, fun _ _ _ _ _ => rfl⟩

/-- C6 (counterexample): the claim says the identifier synthesized by
`get_request_id()` with no active scope is never equal across two
independent calls. `Uuid::new_v4()` only reshuffles the 128 random bits
drawn from the entropy source (overwriting the version and variant bits), so
two independent calls whose entropy draws agree outside those overwritten
bits — here the draws 0 and 2^76, which differ only in the overwritten
version nibble — return equal identifiers. -/
theorem fallback_request_id_collision_on_equal_entropy :
    (get_request_id ⟨none, (fun _ => 0), 0⟩).1 =
      (get_request_id ⟨none, (fun _ => 2 ^ 76), 0⟩).1 ∧
    (0 : Nat) ≠ 2 ^ 76 :=
  ⟨by decide, by decide⟩

/-- C6 (amended): the correlation context cannot fail: within
`set_request_id(id, f)` every `get_request_id()` call on that execution path
returns `id` (shown for one call and for two successive calls) and the outer
binding is restored; with no active scope, `get_request_id()` synthesizes a
fresh version-4 identifier from the next entropy draw without binding it
anywhere (the task-local stays unset); the synthesized value is
syntactically valid (version nibble 4, RFC 4122 variant bits, below 2^128)
and non-zero; but two independent calls are not guaranteed unequal: the
results coincide exactly when the entropy draws agree outside the
overwritten version and variant bits. -/
theorem correlation_context_scope_and_fallback_amended :
    (∀ (id : Nat) (s : RequestContext), set_request_id id get_request_id s = (id, s)) ∧
    (∀ (id : Nat) (s : RequestContext),
      set_request_id id
        (fun t =>
          (((get_request_id t).1, (get_request_id (get_request_id t).2).1),
            (get_request_id (get_request_id t).2).2)) s = ((id, id), s)) ∧
    (∀ s : RequestContext,
      (get_request_id s).2.current_request_id = s.current_request_id) ∧
    (∀ (rand : Nat → Nat) (n : Nat),
      get_request_id ⟨none, rand, n⟩ = (uuid_new_v4 (rand n), ⟨none, rand, n + 1⟩)) ∧
    (∀ r : Nat, uuid_new_v4 r ≠ 0 ∧ uuid_new_v4 r / 2 ^ 76 % 16 = 4 ∧
      uuid_new_v4 r / 2 ^ 62 % 4 = 2 ∧ uuid_new_v4 r < 2 ^ 128) ∧
    (∀ r1 r2 : Nat, uuid_new_v4 r1 = uuid_new_v4 r2 ↔
      uuid_entropy_kept r1 = uuid_entropy_kept r2) := by
  refine ⟨fun id s => rfl, fun id s => rfl, ?_, fun rand n => rfl, ?_, ?_⟩
  · intro s
    obtain ⟨cur, rand, n⟩ := s
    cases cur <;> rfl
  · intro r
    unfold uuid_new_v4
    omega
  · intro r1 r2
    unfold uuid_new_v4 uuid_entropy_kept
    simp only [Prod.mk.injEq]
    omega

/-- C7: `AppError::NotFound{resource:"user", id:"42"}` converts to problem
details with status 404, a detail string containing both "user" and "42",
and an empty errors sequence. -/
theorem not_found_user_42_problem_details (ctx : RequestContext) (now : String) :
    (to_problem_details (AppError.NotFound "user" "42") ctx now).status = 404 ∧
    (∃ pre post, (to_problem_details (AppError.NotFound "user" "42") ctx now).detail =
      pre ++ "user" ++ post) ∧
    (∃ pre post, (to_problem_details (AppError.NotFound "user" "42") ctx now).detail =
      pre ++ "42" ++ post) ∧
    (to_problem_details (AppError.NotFound "user" "42") ctx now).errors = [] :=
  ⟨rfl, ⟨"Resource not found: ", " with id: 42", rfl⟩,
    ⟨"Resource not found: user with id: ", "", rfl⟩, rfl⟩

/-- C8: for every `AppError` the `instance` field of the problem details is
unset, and in the serialized JSON object the `instance` member is omitted
exactly when the field is absent and the `errors` member exactly when the
field-error sequence is empty. -/
theorem instance_unset_and_json_keys_omitted
    (e : AppError) (ctx : RequestContext) (now : String) (p : ProblemDetails) :
    ((to_problem_details e ctx now).instance_uri = none) ∧
    ("instance" ∉ (to_problem_details e ctx now).to_json.map Prod.fst) ∧
    (p.instance_uri = none ↔ "instance" ∉ p.to_json.map Prod.fst) ∧
    (p.errors = [] ↔ "errors" ∉ p.to_json.map Prod.fst) := by
  have key_inst : ∀ q : ProblemDetails,
      (q.instance_uri = none ↔ "instance" ∉ q.to_json.map Prod.fst) := by
    intro q
    obtain ⟨t, ti, st, d, io, rid, ts, errs⟩ := q
    cases io <;> cases errs <;>
      simp [ProblemDetails.to_json, List.isEmpty]
  have key_errs : ∀ q : ProblemDetails,
      (q.errors = [] ↔ "errors" ∉ q.to_json.map Prod.fst) := by
    intro q
    obtain ⟨t, ti, st, d, io, rid, ts, errs⟩ := q
    cases io <;> cases errs <;>
      simp [ProblemDetails.to_json, List.isEmpty]
  exact ⟨rfl, (key_inst (to_problem_details e ctx now)).mp rfl, key_inst p, key_errs p⟩

/-- C9: converting `AppError::ValidationField{field, message}` yields an
errors sequence of exactly one `FieldError` with that field, that message,
the fixed code "validation_error", and no received value. -/
theorem validation_field_single_field_error
    (fld msg : String) (ctx : RequestContext) (now : String) :
    (to_problem_details (AppError.ValidationField fld msg) ctx now).errors =
      [{ field := fld, code := "validation_error", message := msg,
          received := none }] :=
  rfl

/-- Every builder call appends exactly one field error, so a chain of calls
starting from `new()` accumulates one error per call. -/
theorem run_builder_ops_len (ops : List BuilderOp) (b : ValidationErrorBuilder) :
    (ops.foldl apply_builder_op b).errors.errors.length =
      b.errors.errors.length + ops.length := by
  induction ops generalizing b with
  | nil => simp
  | cons op rest ih =>
      cases op <;>
        simp [apply_builder_op, ih, ValidationErrorBuilder.field,
          ValidationErrorBuilder.field_with_value, ValidationErrors.add,
          ValidationErrors.add_with_value] <;> omega

/-- C10: for a builder reached from `new()` by a chain of `field` /
`field_with_value` calls, `has_errors()` is true iff at least one call was
made; and for every builder, `build()` returns an `Err` exactly when
`has_errors()` returns true at that moment. -/
theorem has_errors_iff_accumulated_and_build_err (ops : List BuilderOp) :
    ((run_builder_ops ops).has_errors = true ↔ ops ≠ []) ∧
    ((∃ err, (run_builder_ops ops).build = Except.error err) ↔
      (run_builder_ops ops).has_errors = true) ∧
    (∀ b : ValidationErrorBuilder,
      (∃ err, b.build = Except.error err) ↔ b.has_errors = true) := by
  have key : ∀ b : ValidationErrorBuilder,
      (∃ err, b.build = Except.error err) ↔ b.has_errors = true := by
    intro b
    obtain ⟨⟨l⟩⟩ := b
    cases l <;>
      simp [ValidationErrorBuilder.build, ValidationErrorBuilder.has_errors,
        ValidationErrors.into_result, ValidationErrors.is_empty]
  have hlen : (run_builder_ops ops).errors.errors.length = ops.length := by
    simpa [run_builder_ops, ValidationErrorBuilder.new, ValidationErrors.new]
      using run_builder_ops_len ops ValidationErrorBuilder.new
  refine ⟨?_, key (run_builder_ops ops), key⟩
  have h1 : (run_builder_ops ops).has_errors = true ↔
      (run_builder_ops ops).errors.errors ≠ [] := by
    simp [ValidationErrorBuilder.has_errors, ValidationErrors.is_empty,
      List.isEmpty_iff]
  rw [h1]
  constructor
  · intro h hops
    subst hops
    exact h rfl
  · intro h hnil
    refine absurd (List.length_eq_zero.mp ?_) h
    rw [← hlen, hnil]
    rfl
